import Mathlib

/-!
Verification of the configuration module (`src/option.rs`) of the wmproxy
forwarding proxy: the `ProxyOption` data model, the `Builder` chain of
setters, CLI-derived option construction (`parse_env`), and the TLS material
loaders (`load_certs`, `load_keys`, `get_tls_accept`, `get_tls_request`).

The Rust code is shallowly embedded: the file system is an explicit map from
paths to file contents, PEM parsing (the external rustls-pemfile crate) is
modelled at the granularity of PEM blocks, and the external rustls
consistency checks are abstracted as boolean-valued parameters.
-/

namespace Wmproxy

/-- One PEM block: a tag (the BEGIN/END label, e.g. "CERTIFICATE") and its
DER payload. The payload is opaque to all of the code under verification; it
is represented by a string (abbreviated to the leading base64 characters for
the embedded material). -/
structure PemItem where
  tag : String
  der : String
deriving DecidableEq, Repr

/-- Content of a readable file as seen by the PEM parser: either a
well-formed sequence of PEM blocks, or content the PEM parser rejects
(e.g. a broken base64 section). -/
inductive FileContent where
  | pem (items : List PemItem)
  | malformed
deriving DecidableEq, Repr

/-- The file system, mapping a path to the content of the file stored there;
`none` means the file does not exist. -/
def FS := String → Option FileContent

/-- The kinds of `std::io::Error` produced along these code paths. -/
inductive IoErrorKind where
  | notFound
  | invalidInput
  | invalidData
deriving DecidableEq, Repr

/-- A `std::io::Error`: a kind plus its message. -/
structure IoErr where
  kind : IoErrorKind
  msg : String
deriving DecidableEq, Repr

/-- `File::open`: succeeds with the file's content, fails with a
not-found error when the path does not exist. -/
def openFile (fs : FS) (p : String) : Except IoErr FileContent :=
  match fs p with
  | some c => .ok c
  | none => .error ⟨.notFound, p⟩

/-- Model of the external rustls-pemfile crate: extract the DER payloads of
the PEM blocks carrying the given tag, in file order; malformed PEM content
is an invalid-data io error. -/
def pemBlocks (tag : String) : FileContent → Except IoErr (List String)
  | .pem items => .ok ((items.filter (fun i => i.tag = tag)).map PemItem.der)
  | .malformed => .error ⟨.invalidData, "malformed PEM content"⟩

/-- `rustls_pemfile::certs`: the CERTIFICATE blocks. -/
def rustls_pemfile.certs : FileContent → Except IoErr (List String) :=
  pemBlocks "CERTIFICATE"

/-- `rustls_pemfile::pkcs8_private_keys`: the PKCS#8 PRIVATE KEY blocks. -/
def rustls_pemfile.pkcs8_private_keys : FileContent → Except IoErr (List String) :=
  pemBlocks "PRIVATE KEY"

/-- `rustls_pemfile::rsa_private_keys`: the PKCS#1 RSA PRIVATE KEY blocks. -/
def rustls_pemfile.rsa_private_keys : FileContent → Except IoErr (List String) :=
  pemBlocks "RSA PRIVATE KEY"

/-- `rustls::Certificate`: a DER certificate. -/
structure Certificate where
  der : String
deriving DecidableEq, Repr

/-- `rustls::PrivateKey`: a DER private key. -/
structure PrivateKey where
  der : String
deriving DecidableEq, Repr

/-- The embedded fallback certificate chain compiled into `load_certs`
(two CERTIFICATE blocks; DER abbreviated to its leading characters). -/
def embeddedCertFile : FileContent :=
  .pem [⟨"CERTIFICATE", "MIIF+zCCBOOg"⟩, ⟨"CERTIFICATE", "MIIEqjCCA5Kg"⟩]

/-- The embedded fallback private key compiled into `load_keys`
(a single PKCS#1 RSA PRIVATE KEY block; DER abbreviated). -/
def embeddedKeyFile : FileContent :=
  .pem [⟨"RSA PRIVATE KEY", "MIIEpQIBAAKC"⟩]

/-- Modelled from the spec: the `Flag` bitflags type of the repository
(defined outside `src/option.rs`), a set drawn from HTTP, HTTPS, SOCKS5. -/
structure Flag where
  http : Bool
  https : Bool
  socks5 : Bool
deriving DecidableEq, Repr

def Flag.HTTP : Flag := ⟨true, false, false⟩

def Flag.HTTPS : Flag := ⟨false, true, false⟩

def Flag.SOCKS5 : Flag := ⟨false, false, true⟩

/-- Bitwise or of two flag sets (Rust `|` on bitflags). -/
def Flag.union (a b : Flag) : Flag :=
  ⟨a.http || b.http, a.https || b.https, a.socks5 || b.socks5⟩

/-- Bitflags `set(other, value)`: insert the bits of `other` when `value` is
true, remove them when it is false. -/
def Flag.set (a b : Flag) (value : Bool) : Flag :=
  if value then a.union b
  else ⟨a.http && !b.http, a.https && !b.https, a.socks5 && !b.socks5⟩

/-- A socket address string (`std::net::SocketAddr` is only ever produced by
parsing a string; whether a string parses is abstracted as a parameter). -/
abbrev SocketAddr := String

/-- An IP address string (`std::net::IpAddr`), likewise. -/
abbrev IpAddr := String

/-- Modelled from the spec: the repository's error enum (the error module is
not under `src/`). Only the variants reachable from the configuration module
are modelled: `ProtNoSupport` is the spec's NotSupported, and `ioErr` wraps a
converted `std::io::Error` (the spec's IoError/FormatError/ConfigError all
reach the caller through this conversion in this module). -/
inductive ProxyError where
  | ProtNoSupport
  | ioErr (e : IoErr)
deriving DecidableEq, Repr

/-- The `ProxyOption` configuration record. -/
structure ProxyOption where
  flag : Flag
  bind_addr : String
  bind_port : Nat
  server : Option SocketAddr
  username : Option String
  password : Option String
  udp_bind : Option IpAddr
  proxy : Bool
  center : Bool
  ts : Bool
  tc : Bool
  domain : Option String
  cert : Option String
  key : Option String
deriving DecidableEq, Repr

/-- `impl Default for ProxyOption`. -/
def ProxyOption.default : ProxyOption :=
  { flag := Flag.HTTP.union Flag.HTTPS
    bind_addr := "127.0.0.1"
    bind_port := 8090
    server := none
    username := none
    password := none
    udp_bind := none
    proxy := false
    center := false
    ts := false
    tc := false
    domain := none
    cert := none
    key := none }

/-- The `Builder`, carrying `ProxyResult<ProxyOption>` as its inner state. -/
structure Builder where
  inner : Except ProxyError ProxyOption

def Builder.new : Builder :=
  ⟨.ok ProxyOption.default⟩

def Builder.and_then (b : Builder)
    (func : ProxyOption → Except ProxyError ProxyOption) : Builder :=
  ⟨b.inner.bind func⟩

def Builder.flag (b : Builder) (flag : Flag) : Builder :=
  b.and_then fun proxy => .ok { proxy with flag := flag }

def Builder.add_flag (b : Builder) (flag : Flag) : Builder :=
  b.and_then fun proxy => .ok { proxy with flag := proxy.flag.set flag true }

def Builder.bind_addr (b : Builder) (addr : String) : Builder :=
  b.and_then fun proxy => .ok { proxy with bind_addr := addr }

def Builder.bind_port (b : Builder) (port : Nat) : Builder :=
  b.and_then fun proxy => .ok { proxy with bind_port := port }

def Builder.server (b : Builder) (addr : Option SocketAddr) : Builder :=
  b.and_then fun proxy => .ok { proxy with server := addr }

def Builder.ts (b : Builder) (is_tls : Bool) : Builder :=
  b.and_then fun proxy => .ok { proxy with ts := is_tls }

def Builder.proxy (b : Builder) (p : Bool) : Builder :=
  b.and_then fun proxy => .ok { proxy with proxy := p }

def Builder.center (b : Builder) (center : Bool) : Builder :=
  b.and_then fun proxy => .ok { proxy with center := center }

def Builder.tc (b : Builder) (is_tls : Bool) : Builder :=
  b.and_then fun proxy => .ok { proxy with tc := is_tls }

def Builder.cert (b : Builder) (cert : Option String) : Builder :=
  b.and_then fun proxy => .ok { proxy with cert := cert }

def Builder.key (b : Builder) (key : Option String) : Builder :=
  b.and_then fun proxy => .ok { proxy with key := key }

def Builder.domain (b : Builder) (domain : Option String) : Builder :=
  b.and_then fun proxy => .ok { proxy with domain := domain }

def Builder.username (b : Builder) (username : Option String) : Builder :=
  b.and_then fun proxy => .ok { proxy with username := username }

def Builder.password (b : Builder) (password : Option String) : Builder :=
  b.and_then fun proxy => .ok { proxy with password := password }

def Builder.udp_bind (b : Builder) (udp_bind : Option IpAddr) : Builder :=
  b.and_then fun proxy => .ok { proxy with udp_bind := udp_bind }

def ProxyOption.builder : Builder := Builder.new

/-- `ProxyOption::load_certs`: with a path, open the file and take its PEM
CERTIFICATE blocks; without one, take the CERTIFICATE blocks of the embedded
fallback chain. -/
def ProxyOption.load_certs (fs : FS) (path : Option String) :
    Except IoErr (List Certificate) :=
  match path with
  | some p =>
    match (openFile fs p).bind rustls_pemfile.certs with
    | .error e => .error e
    | .ok certs => .ok (certs.map Certificate.mk)
  | none =>
    match rustls_pemfile.certs embeddedCertFile with
    | .error e => .error e
    | .ok certs => .ok (certs.map Certificate.mk)

/-- The `let keys = ...` prefix of `ProxyOption::load_keys`: the key
candidates the code decodes. With a path it runs only
`rustls_pemfile::pkcs8_private_keys` on the file; without one it runs only
`rustls_pemfile::rsa_private_keys` on the embedded key (the PKCS#8 call
there is commented out in the source). -/
def keyCandidates (fs : FS) (path : Option String) : Except IoErr (List String) :=
  match path with
  | some p => (openFile fs p).bind rustls_pemfile.pkcs8_private_keys
  | none => rustls_pemfile.rsa_private_keys embeddedKeyFile

/-- `ProxyOption::load_keys`: decode the key candidates, then demand exactly
one, failing with an invalid-input io error on zero or several. -/
def ProxyOption.load_keys (fs : FS) (path : Option String) :
    Except IoErr PrivateKey :=
  match keyCandidates fs path with
  | .error e => .error e
  | .ok [] => .error ⟨.invalidInput, "No PKCS8-encoded private key found"⟩
  | .ok [k] => .ok ⟨k⟩
  | .ok (_ :: _ :: _) =>
    .error ⟨.invalidInput, "More than one PKCS8-encoded private key found"⟩

/-- A rustls server config, as assembled by
`ServerConfig::builder().with_safe_defaults().with_no_client_auth()
.with_single_cert(certs, key)`: the two builder steps are recorded as the
boolean fields, the chain and key as data. -/
structure ServerConfig where
  safeDefaults : Bool
  noClientAuth : Bool
  certs : List Certificate
  key : PrivateKey
deriving DecidableEq, Repr

/-- A rustls client config, as assembled by
`ClientConfig::builder().with_safe_defaults()
.with_root_certificates(roots).with_no_client_auth()`. -/
structure ClientConfig where
  safeDefaults : Bool
  roots : List Certificate
  noClientAuth : Bool
deriving DecidableEq, Repr

/-- `TlsAcceptor::from(Arc::new(config))`. -/
structure TlsAcceptor where
  config : ServerConfig
deriving DecidableEq, Repr

/-- The message of the error produced by this model of
`with_single_cert` on a chain/key mismatch. -/
def singleCertErr : String := "invalid certificate chain or private key"

/-- Model of rustls `with_single_cert`: its internal consistency check
(does the key match the chain?) is external collaborator code, abstracted
as the boolean parameter `check`. -/
def with_single_cert (check : List Certificate → PrivateKey → Bool)
    (certs : List Certificate) (key : PrivateKey) :
    Except String ServerConfig :=
  if check certs key then .ok ⟨true, true, certs, key⟩
  else .error singleCertErr

/-- Model of `rustls::RootCertStore::add`: adding a certificate can fail
inside rustls (invalid DER); whether it does is abstracted as the `addable`
parameter. On failure the store is unchanged — the source discards the
result (`let _ = root_cert_store.add(&cert)`). -/
def RootCertStore.add (addable : Certificate → Bool)
    (store : List Certificate) (c : Certificate) : List Certificate :=
  if addable c then store ++ [c] else store

/-- `ProxyOption::get_tls_accept`: refuse with `ProtNoSupport` unless `tc`;
otherwise load the chain and key (io errors converted to `ProxyError` by the
`?` operator) and build the server config; a `with_single_cert` failure is
mapped to an invalid-input io error. -/
def ProxyOption.get_tls_accept (check : List Certificate → PrivateKey → Bool)
    (fs : FS) (o : ProxyOption) : Except ProxyError TlsAcceptor :=
  if !o.tc then .error .ProtNoSupport
  else
    match ProxyOption.load_certs fs o.cert with
    | .error e => .error (.ioErr e)
    | .ok certs =>
      match ProxyOption.load_keys fs o.key with
      | .error e => .error (.ioErr e)
      | .ok key =>
        match with_single_cert check certs key with
        | .error err => .error (.ioErr ⟨.invalidInput, err⟩)
        | .ok config => .ok ⟨config⟩

/-- `ProxyOption::get_tls_request`: refuse with `ProtNoSupport` unless `ts`;
otherwise load the certificates from `cert`, add each to an initially empty
root store (ignoring per-certificate add failures), and return the client
config. -/
def ProxyOption.get_tls_request (addable : Certificate → Bool)
    (fs : FS) (o : ProxyOption) : Except ProxyError ClientConfig :=
  if !o.ts then .error .ProtNoSupport
  else
    match ProxyOption.load_certs fs o.cert with
    | .error e => .error (.ioErr e)
    | .ok certs =>
      let root_cert_store := certs.foldl (RootCertStore.add addable) []
      .ok ⟨true, root_cert_store, true⟩

/-- The CLI values as delivered by the external commander crate after
`parse_env_or_exit`: one field per declared option. `p` and `b` are present
unconditionally because the declaration supplies defaults (8090 and
"127.0.0.1"), which is why the source can `unwrap()` them. The `f` list
(`-f, --flag`) is declared but never read back by `parse_env`. -/
structure Commandline where
  f : Option (List String)
  proxyOpt : Option Bool
  c : Option Bool
  tc : Option Bool
  ts : Option Bool
  cert : Option String
  key : Option String
  domain : Option String
  p : Int
  b : String
  user : Option String
  S : Option String
  pass : Option String
  udp : Option String
deriving DecidableEq, Repr

/-- `ProxyOption::parse_env`, from the parsed CLI values onward. String
parsing of socket/IP addresses (`str::parse::<SocketAddr>`,
`str::parse::<IpAddr>`) is external and abstracted as the two function
parameters returning `none` on parse failure. The `as u16` cast on the port
is the explicit truncation `emod 65536`. -/
def ProxyOption.parse_env (parseSA : String → Option SocketAddr)
    (parseIp : String → Option IpAddr) (command : Commandline) :
    Except ProxyError ProxyOption :=
  let listen_port : Nat := (command.p.emod 65536).toNat
  let listen_host : String := command.b
  let builder := ProxyOption.builder.bind_port listen_port
  let builder :=
    match parseSA (listen_host ++ ":" ++ toString listen_port) with
    | none => builder.bind_addr "127.0.0.1"
    | some _ => builder.bind_addr listen_host
  let builder := builder.flag ((Flag.HTTP.union Flag.HTTPS).union Flag.SOCKS5)
  let builder := builder.username command.user
  let builder := builder.password command.pass
  let builder := builder.tc (command.tc.getD false)
  let builder := builder.ts (command.ts.getD false)
  let builder := builder.center (command.c.getD false)
  let builder := builder.proxy (command.proxyOpt.getD false)
  let builder := builder.domain command.domain
  let builder := builder.cert command.cert
  let builder := builder.key command.key
  let builder :=
    match command.udp with
    | some udp => builder.udp_bind (parseIp udp)
    | none => builder
  let builder :=
    match command.S with
    | some s => builder.server (parseSA s)
    | none => builder
  builder.inner

/-- The fifteen `Builder` setters as first-class operations, so that claims
about arbitrary setter chains can quantify over sequences. -/
inductive SetterOp where
  | flag (f : Flag)
  | add_flag (f : Flag)
  | bind_addr (s : String)
  | bind_port (n : Nat)
  | server (a : Option SocketAddr)
  | ts (b : Bool)
  | tc (b : Bool)
  | proxy (b : Bool)
  | center (b : Bool)
  | cert (s : Option String)
  | key (s : Option String)
  | domain (s : Option String)
  | username (s : Option String)
  | password (s : Option String)
  | udp_bind (a : Option IpAddr)
deriving DecidableEq, Repr

/-- Apply one setter operation to a builder. -/
def applyOp (b : Builder) : SetterOp → Builder
  | .flag f => b.flag f
  | .add_flag f => b.add_flag f
  | .bind_addr s => b.bind_addr s
  | .bind_port n => b.bind_port n
  | .server a => b.server a
  | .ts v => b.ts v
  | .tc v => b.tc v
  | .proxy v => b.proxy v
  | .center v => b.center v
  | .cert s => b.cert s
  | .key s => b.key s
  | .domain s => b.domain s
  | .username s => b.username s
  | .password s => b.password s
  | .udp_bind a => b.udp_bind a

/-! ### Helper lemmas -/

/-- Full characterization of `parse_env`: it always succeeds, and each field
of the resulting option is determined by the corresponding CLI value. -/
theorem parse_env_eq (parseSA : String → Option SocketAddr)
    (parseIp : String → Option IpAddr) (command : Commandline) :
    ProxyOption.parse_env parseSA parseIp command =
      .ok
        { flag := ⟨true, true, true⟩
          bind_addr :=
            match parseSA (command.b ++ ":" ++
                toString ((command.p.emod 65536).toNat)) with
            | none => "127.0.0.1"
            | some _ => command.b
          bind_port := (command.p.emod 65536).toNat
          server := command.S.bind parseSA
          username := command.user
          password := command.pass
          udp_bind := command.udp.bind parseIp
          proxy := command.proxyOpt.getD false
          center := command.c.getD false
          ts := command.ts.getD false
          tc := command.tc.getD false
          domain := command.domain
          cert := command.cert
          key := command.key } := by
  unfold ProxyOption.parse_env
  cases hsa : parseSA (command.b ++ ":" ++ toString ((command.p.emod 65536).toNat)) <;>
    cases hudp : command.udp <;> cases hS : command.S <;>
      simp [hsa, hudp, hS, ProxyOption.builder, Builder.new, ProxyOption.default,
        Builder.bind_port, Builder.bind_addr, Builder.flag, Builder.username,
        Builder.password, Builder.tc, Builder.ts, Builder.center,
        Builder.proxy, Builder.domain, Builder.cert, Builder.key,
        Builder.udp_bind, Builder.server, Builder.and_then, Except.bind,
        Flag.union, Flag.HTTP, Flag.HTTPS, Flag.SOCKS5, Option.bind]

/-- Applying any setter to a builder already holding an error returns the
same error unchanged. -/
theorem applyOp_error (e : ProxyError) (op : SetterOp) :
    applyOp ⟨.error e⟩ op = ⟨.error e⟩ := by
  cases op <;> rfl

/-! ### Claims -/

/-- C7: the Builder chain carries a deferred error: `Builder::new()` starts
from the non-error default option, and once the inner result is an error,
any sequence of further setter calls returns a builder holding that same
error unchanged, so the error surfaces at the end of the chain. -/
theorem C7_builder_deferred_error (e : ProxyError) (ops : List SetterOp) :
    Builder.new.inner = .ok ProxyOption.default ∧
    (ops.foldl applyOp ⟨.error e⟩).inner = .error e := by
  refine ⟨rfl, ?_⟩
  induction ops with
  | nil => rfl
  | cons op ops ih => simpa [applyOp_error] using ih

/-- C10: the default `ProxyOption` (the state `Builder::new()` starts from)
enables exactly the HTTP and HTTPS flags — SOCKS5 is off — binds to
127.0.0.1 port 8090, and has every optional field `none` and every boolean
field `false`. -/
theorem C10_default_option :
    ProxyOption.default =
      { flag := ⟨true, true, false⟩
        bind_addr := "127.0.0.1"
        bind_port := 8090
        server := none
        username := none
        password := none
        udp_bind := none
        proxy := false
        center := false
        ts := false
        tc := false
        domain := none
        cert := none
        key := none } ∧
    (Flag.HTTP.union Flag.HTTPS).socks5 = false ∧
    Builder.new.inner = .ok ProxyOption.default :=
  ⟨rfl, rfl, rfl⟩

/-- A parse function under which no string parses (as a socket address). -/
def saNone : String → Option SocketAddr := fun _ => none

/-- A parse function under which no string parses (as an IP address). -/
def ipNone : String → Option IpAddr := fun _ => none

/-- CLI values carrying `-f http`, requesting only the HTTP protocol. -/
def cmd_f_http : Commandline :=
  { f := some ["http"], proxyOpt := none, c := none, tc := none, ts := none,
    cert := none, key := none, domain := none, p := 8090, b := "127.0.0.1",
    user := none, S := none, pass := none, udp := none }

/-- The option parse_env produces from `cmd_f_http`. -/
def opt_f_http : ProxyOption :=
  { flag := ⟨true, true, true⟩
    bind_addr := "127.0.0.1"
    bind_port := 8090
    server := none
    username := none
    password := none
    udp_bind := none
    proxy := false
    center := false
    ts := false
    tc := false
    domain := none
    cert := none
    key := none }

/-- C3 counterexample: with `-f http` requesting only the HTTP protocol,
parse_env still produces all three protocol flags — the `-f (--flag)` option
is declared but its value is never read. -/
theorem C3_flag_csv_ignored :
    cmd_f_http.f = some ["http"] ∧
    (ProxyOption.parse_env saNone ipNone cmd_f_http).toOption.map
        ProxyOption.flag = some ⟨true, true, true⟩ ∧
    (⟨true, true, true⟩ : Flag) ≠ Flag.HTTP := by
  refine ⟨rfl, ?_, by decide⟩
  rw [parse_env_eq]
  rfl

/-- C3 (amended): the flags field of every option produced by parse_env is
the full set of HTTP, HTTPS and SOCKS5, regardless of the `-f (--flag)`
values given on the command line. -/
theorem C3_flags_always_all (parseSA : String → Option SocketAddr)
    (parseIp : String → Option IpAddr) (command : Commandline)
    (o : ProxyOption)
    (h : ProxyOption.parse_env parseSA parseIp command = .ok o) :
    o.flag = ⟨true, true, true⟩ := by
  rw [parse_env_eq] at h
  cases h
  rfl

theorem C3_flags_always_all_witness : opt_f_http.flag = ⟨true, true, true⟩ :=
  C3_flags_always_all saNone ipNone cmd_f_http opt_f_http (by rfl)

/-- C4: parse_env never reports an error for the bind host: bind_addr is
the given host when "host:port" parses as a socket address and silently
reverts to loopback "127.0.0.1" when it does not, the result being `ok` in
either case. -/
theorem C4_bind_addr_fallback (parseSA : String → Option SocketAddr)
    (parseIp : String → Option IpAddr) (command : Commandline) :
    (ProxyOption.parse_env parseSA parseIp command).toOption.map
        ProxyOption.bind_addr =
      some (match parseSA (command.b ++ ":" ++
          toString ((command.p.emod 65536).toNat)) with
        | none => "127.0.0.1"
        | some _ => command.b) := by
  rw [parse_env_eq]
  rfl

/-- C8: on a builder holding a non-error option, each setter updates exactly
the field it names and leaves every other field unchanged (the record-update
equations), `add_flag` inserts the given bits into the flag set, and
applying the same value-setter twice equals applying it once with the last
value. -/
theorem C8_setters_frame (o : ProxyOption) (bld : Builder)
    (f f2 : Flag) (s s2 : String) (n n2 : Nat)
    (sa sa2 : Option SocketAddr) (v v2 : Bool)
    (os os2 : Option String) (oip oip2 : Option IpAddr) :
    (Builder.mk (.ok o)).flag f = ⟨.ok { o with flag := f }⟩ ∧
    (Builder.mk (.ok o)).add_flag f = ⟨.ok { o with flag := o.flag.set f true }⟩ ∧
    o.flag.set f true = o.flag.union f ∧
    (Builder.mk (.ok o)).bind_addr s = ⟨.ok { o with bind_addr := s }⟩ ∧
    (Builder.mk (.ok o)).bind_port n = ⟨.ok { o with bind_port := n }⟩ ∧
    (Builder.mk (.ok o)).server sa = ⟨.ok { o with server := sa }⟩ ∧
    (Builder.mk (.ok o)).ts v = ⟨.ok { o with ts := v }⟩ ∧
    (Builder.mk (.ok o)).tc v = ⟨.ok { o with tc := v }⟩ ∧
    (Builder.mk (.ok o)).proxy v = ⟨.ok { o with proxy := v }⟩ ∧
    (Builder.mk (.ok o)).center v = ⟨.ok { o with center := v }⟩ ∧
    (Builder.mk (.ok o)).cert os = ⟨.ok { o with cert := os }⟩ ∧
    (Builder.mk (.ok o)).key os = ⟨.ok { o with key := os }⟩ ∧
    (Builder.mk (.ok o)).domain os = ⟨.ok { o with domain := os }⟩ ∧
    (Builder.mk (.ok o)).username os = ⟨.ok { o with username := os }⟩ ∧
    (Builder.mk (.ok o)).password os = ⟨.ok { o with password := os }⟩ ∧
    (Builder.mk (.ok o)).udp_bind oip = ⟨.ok { o with udp_bind := oip }⟩ ∧
    (bld.flag f).flag f2 = bld.flag f2 ∧
    (bld.bind_addr s).bind_addr s2 = bld.bind_addr s2 ∧
    (bld.bind_port n).bind_port n2 = bld.bind_port n2 ∧
    (bld.server sa).server sa2 = bld.server sa2 ∧
    (bld.ts v).ts v2 = bld.ts v2 ∧
    (bld.tc v).tc v2 = bld.tc v2 ∧
    (bld.proxy v).proxy v2 = bld.proxy v2 ∧
    (bld.center v).center v2 = bld.center v2 ∧
    (bld.cert os).cert os2 = bld.cert os2 ∧
    (bld.key os).key os2 = bld.key os2 ∧
    (bld.domain os).domain os2 = bld.domain os2 ∧
    (bld.username os).username os2 = bld.username os2 ∧
    (bld.password os).password os2 = bld.password os2 ∧
    (bld.udp_bind oip).udp_bind oip2 = bld.udp_bind oip2 := by
  obtain ⟨inner⟩ := bld
  cases inner <;>
    exact ⟨rfl, rfl, rfl, rfl, rfl, rfl, rfl, rfl, rfl, rfl, rfl, rfl, rfl,
      rfl, rfl, rfl, rfl, rfl, rfl, rfl, rfl, rfl, rfl, rfl, rfl, rfl, rfl,
      rfl, rfl, rfl⟩

/-- C9: parse_env never fails because of an unparsable `-S` or `--udp`
argument: the result is always `ok`, an `-S` string that does not parse as
a socket address yields `server = none`, and a `--udp` string that does not
parse as an IP address yields `udp_bind = none`. -/
theorem C9_unparsable_upstream_silent (parseSA : String → Option SocketAddr)
    (parseIp : String → Option IpAddr) (command : Commandline) :
    (ProxyOption.parse_env parseSA parseIp command).toOption.isSome = true ∧
    (∀ s, command.S = some s → parseSA s = none →
      (ProxyOption.parse_env parseSA parseIp command).toOption.map
        ProxyOption.server = some none) ∧
    (∀ u, command.udp = some u → parseIp u = none →
      (ProxyOption.parse_env parseSA parseIp command).toOption.map
        ProxyOption.udp_bind = some none) := by
  rw [parse_env_eq]
  refine ⟨rfl, ?_, ?_⟩
  · intro s hS hs
    simp [hS, hs, Except.toOption]
  · intro u hU hu
    simp [hU, hu, Except.toOption]

/-- CLI values whose `-S` and `--udp` strings parse as nothing. -/
def cmd_bad_upstream : Commandline :=
  { f := none, proxyOpt := none, c := none, tc := none, ts := none,
    cert := none, key := none, domain := none, p := 8090, b := "127.0.0.1",
    user := none, S := some "300.1.1.1:99999", pass := none,
    udp := some "not-an-ip" }

theorem C9_unparsable_upstream_silent_witness :
    (ProxyOption.parse_env saNone ipNone cmd_bad_upstream).toOption.map
        ProxyOption.server = some none ∧
    (ProxyOption.parse_env saNone ipNone cmd_bad_upstream).toOption.map
        ProxyOption.udp_bind = some none :=
  ⟨(C9_unparsable_upstream_silent saNone ipNone cmd_bad_upstream).2.1
      "300.1.1.1:99999" rfl rfl,
   (C9_unparsable_upstream_silent saNone ipNone cmd_bad_upstream).2.2
      "not-an-ip" rfl rfl⟩

/-- A file system whose key file holds exactly one PKCS#1 RSA key block. -/
def fsRsaOnly : FS := fun p =>
  if p = "key.pem" then some (.pem [⟨"RSA PRIVATE KEY", "MIIExampleRsa"⟩])
  else none

/-- C1 counterexample: a key file holding exactly one PKCS#1 (RSA) private
key decodes to one key under the PKCS#1 parser, yet load_keys rejects it
with the zero-keys error — when a path is given the code runs only the
PKCS#8 decoder and never falls back to PKCS#1/RSA. -/
theorem C1_no_pkcs1_fallback :
    rustls_pemfile.rsa_private_keys
        (FileContent.pem [⟨"RSA PRIVATE KEY", "MIIExampleRsa"⟩]) =
      .ok ["MIIExampleRsa"] ∧
    ProxyOption.load_keys fsRsaOnly (some "key.pem") =
      .error ⟨.invalidInput, "No PKCS8-encoded private key found"⟩ :=
  ⟨rfl, rfl⟩

/-- C1 (amended): load_keys decodes only PKCS#8 blocks when a key path is
given and only the embedded PKCS#1/RSA key when it is absent (no fallback
from one format to the other); it returns a key exactly when exactly one
candidate is decoded, fails with an invalid-input (format) error on zero or
several candidates, and propagates decoding errors. -/
theorem C1_load_keys_exactly_one (fs : FS) (path : Option String) :
    (∀ k, ProxyOption.load_keys fs path = .ok k ↔
      keyCandidates fs path = .ok [k.der]) ∧
    (keyCandidates fs path = .ok [] →
      ProxyOption.load_keys fs path =
        .error ⟨.invalidInput, "No PKCS8-encoded private key found"⟩) ∧
    (∀ k1 k2 ks, keyCandidates fs path = .ok (k1 :: k2 :: ks) →
      ProxyOption.load_keys fs path =
        .error ⟨.invalidInput, "More than one PKCS8-encoded private key found"⟩) ∧
    (∀ e, keyCandidates fs path = .error e →
      ProxyOption.load_keys fs path = .error e) := by
  rcases hk : keyCandidates fs path with e | ks
  · refine ⟨?_, ?_, ?_, ?_⟩ <;>
      simp [ProxyOption.load_keys, hk]
  · match ks, hk with
    | [], hk =>
      refine ⟨?_, ?_, ?_, ?_⟩ <;>
        simp [ProxyOption.load_keys, hk]
    | [k0], hk =>
      refine ⟨?_, ?_, ?_, ?_⟩
      · intro kk
        obtain ⟨d⟩ := kk
        constructor
        · intro h
          simp only [ProxyOption.load_keys, hk, Except.ok.injEq,
            PrivateKey.mk.injEq] at h
          subst h
          rfl
        · intro h
          simp only [Except.ok.injEq, List.cons.injEq, and_true] at h
          subst h
          simp [ProxyOption.load_keys, hk]
      · intro h
        simp at h
      · intro k1 k2 ks2 h
        simp at h
      · intro e h
        simp at h
    | k1 :: k2 :: ks2, hk =>
      refine ⟨?_, ?_, ?_, ?_⟩ <;>
        simp [ProxyOption.load_keys, hk]

/-- A file system whose key file holds exactly one PKCS#8 key block. -/
def fsPkcs8 : FS := fun p =>
  if p = "key.pem" then some (.pem [⟨"PRIVATE KEY", "MIIPkcs8Key"⟩])
  else none

theorem C1_load_keys_exactly_one_witness :
    ProxyOption.load_keys fsPkcs8 (some "key.pem") = .ok ⟨"MIIPkcs8Key"⟩ :=
  ((C1_load_keys_exactly_one fsPkcs8 (some "key.pem")).1
    ⟨"MIIPkcs8Key"⟩).mpr rfl

/-- C6: load_certs parses the file at the given path as concatenated PEM
CERTIFICATE blocks when a path is present, returning them in file order, and
parses the embedded fallback chain when it is absent; a missing file is a
not-found io error and malformed PEM content is an invalid-data (format)
error. -/
theorem C6_load_certs_pem (fs : FS) (path : Option String) :
    (∀ p items, path = some p → fs p = some (.pem items) →
      ProxyOption.load_certs fs path =
        .ok (((items.filter (fun i => i.tag = "CERTIFICATE")).map
          PemItem.der).map Certificate.mk)) ∧
    (∀ p, path = some p → fs p = none →
      ProxyOption.load_certs fs path = .error ⟨.notFound, p⟩) ∧
    (∀ p, path = some p → fs p = some .malformed →
      ProxyOption.load_certs fs path =
        .error ⟨.invalidData, "malformed PEM content"⟩) ∧
    (path = none →
      ProxyOption.load_certs fs path =
        .ok [⟨"MIIF+zCCBOOg"⟩, ⟨"MIIEqjCCA5Kg"⟩]) := by
  refine ⟨?_, ?_, ?_, ?_⟩
  · intro p items hp hf
    subst hp
    simp [ProxyOption.load_certs, openFile, hf, rustls_pemfile.certs,
      pemBlocks, Except.bind]
  · intro p hp hf
    subst hp
    simp [ProxyOption.load_certs, openFile, hf, Except.bind]
  · intro p hp hf
    subst hp
    simp [ProxyOption.load_certs, openFile, hf, rustls_pemfile.certs,
      pemBlocks, Except.bind]
  · intro hp
    subst hp
    rfl

/-- A file system holding a certificate file with two CERTIFICATE blocks and
an interleaved block of another kind. -/
def fsCerts : FS := fun p =>
  if p = "cert.pem" then
    some (.pem [⟨"CERTIFICATE", "c1"⟩, ⟨"EC PARAMETERS", "x"⟩,
      ⟨"CERTIFICATE", "c2"⟩])
  else none

theorem C6_load_certs_pem_witness :
    ProxyOption.load_certs fsCerts (some "cert.pem") = .ok [⟨"c1"⟩, ⟨"c2"⟩] :=
  (C6_load_certs_pem fsCerts (some "cert.pem")).1 "cert.pem"
    [⟨"CERTIFICATE", "c1"⟩, ⟨"EC PARAMETERS", "x"⟩, ⟨"CERTIFICATE", "c2"⟩]
    rfl rfl

/-- C2: get_tls_accept fails with the NotSupported error exactly when `tc`
is false; with `tc` true it builds the server acceptor from the loaded
chain and key with safe defaults and no client auth, propagates certificate
and key load failures, and fails with an invalid-input io error when the
rustls consistency check rejects the chain/key pair. -/
theorem C2_get_tls_accept_spec (check : List Certificate → PrivateKey → Bool)
    (fs : FS) (o : ProxyOption) :
    (ProxyOption.get_tls_accept check fs o = .error .ProtNoSupport ↔
      o.tc = false) ∧
    (∀ certs key, o.tc = true →
      ProxyOption.load_certs fs o.cert = .ok certs →
      ProxyOption.load_keys fs o.key = .ok key →
      (check certs key = true →
        ProxyOption.get_tls_accept check fs o =
          .ok ⟨⟨true, true, certs, key⟩⟩) ∧
      (check certs key = false →
        ProxyOption.get_tls_accept check fs o =
          .error (.ioErr ⟨.invalidInput, singleCertErr⟩))) ∧
    (∀ e, o.tc = true → ProxyOption.load_certs fs o.cert = .error e →
      ProxyOption.get_tls_accept check fs o = .error (.ioErr e)) ∧
    (∀ certs e, o.tc = true → ProxyOption.load_certs fs o.cert = .ok certs →
      ProxyOption.load_keys fs o.key = .error e →
      ProxyOption.get_tls_accept check fs o = .error (.ioErr e)) := by
  cases htc : o.tc
  · refine ⟨?_, ?_, ?_, ?_⟩
    · simp [ProxyOption.get_tls_accept, htc]
    · intro certs key h
      simp at h
    · intro e h
      simp at h
    · intro certs e h
      simp at h
  · rcases hc : ProxyOption.load_certs fs o.cert with e | certs
    · refine ⟨?_, ?_, ?_, ?_⟩
      · simp [ProxyOption.get_tls_accept, htc, hc]
      · intro certs key _ hok
        simp at hok
      · intro e2 _ he
        injection he with h
        subst h
        simp [ProxyOption.get_tls_accept, htc, hc]
      · intro certs e2 _ hok
        simp at hok
    · rcases hk : ProxyOption.load_keys fs o.key with e | key
      · refine ⟨?_, ?_, ?_, ?_⟩
        · simp [ProxyOption.get_tls_accept, htc, hc, hk]
        · intro certs2 key2 _ hok hkk
          simp at hkk
        · intro e2 _ he
          simp at he
        · intro certs2 e2 _ hok hke
          injection hke with h
          subst h
          simp [ProxyOption.get_tls_accept, htc, hc, hk]
      · refine ⟨?_, ?_, ?_, ?_⟩
        · cases hchk : check certs key <;>
            simp [ProxyOption.get_tls_accept, htc, hc, hk,
              with_single_cert, hchk]
        · intro certs2 key2 _ hok hkk
          injection hok with h1
          subst h1
          injection hkk with h2
          subst h2
          constructor
          · intro hchk
            simp [ProxyOption.get_tls_accept, htc, hc, hk,
              with_single_cert, hchk]
          · intro hchk
            simp [ProxyOption.get_tls_accept, htc, hc, hk,
              with_single_cert, hchk]
        · intro e2 _ he
          simp at he
        · intro certs2 e2 _ hok hke
          simp at hke

/-- The empty file system: every path is missing, so the loaders use only
the embedded fallback material. -/
def fsEmpty : FS := fun _ => none

/-- The default option with TLS termination of inbound clients enabled. -/
def opt_tc : ProxyOption := { ProxyOption.default with tc := true }

theorem C2_get_tls_accept_spec_witness :
    ProxyOption.get_tls_accept (fun _ _ => true) fsEmpty opt_tc =
      .ok ⟨⟨true, true, [⟨"MIIF+zCCBOOg"⟩, ⟨"MIIEqjCCA5Kg"⟩],
        ⟨"MIIEpQIBAAKC"⟩⟩⟩ :=
  ((C2_get_tls_accept_spec (fun _ _ => true) fsEmpty opt_tc).2.1
    [⟨"MIIF+zCCBOOg"⟩, ⟨"MIIEqjCCA5Kg"⟩] ⟨"MIIEpQIBAAKC"⟩
    rfl rfl rfl).1 rfl

/-- Folding `RootCertStore.add` over a certificate list appends exactly the
certificates whose add succeeds, in their original order. -/
theorem foldl_rootCertStore_add (addable : Certificate → Bool)
    (l acc : List Certificate) :
    l.foldl (RootCertStore.add addable) acc =
      acc ++ l.filter (fun c => addable c) := by
  induction l generalizing acc with
  | nil => simp
  | cons c l ih =>
    cases haddable : addable c <;>
      simp [RootCertStore.add, haddable, ih]

/-- C5: get_tls_request fails with the NotSupported error exactly when `ts`
is false; with `ts` true it returns a client config with safe defaults and
no client auth whose root store holds the certificates loaded from the
`cert` field that rustls accepts (all of them, when every one is
acceptable), and it propagates load failures. -/
theorem C5_get_tls_request_spec (addable : Certificate → Bool)
    (fs : FS) (o : ProxyOption) :
    (ProxyOption.get_tls_request addable fs o = .error .ProtNoSupport ↔
      o.ts = false) ∧
    (∀ certs, o.ts = true → ProxyOption.load_certs fs o.cert = .ok certs →
      ProxyOption.get_tls_request addable fs o =
        .ok ⟨true, certs.filter (fun c => addable c), true⟩ ∧
      ((∀ c ∈ certs, addable c = true) →
        ProxyOption.get_tls_request addable fs o = .ok ⟨true, certs, true⟩)) ∧
    (∀ e, o.ts = true → ProxyOption.load_certs fs o.cert = .error e →
      ProxyOption.get_tls_request addable fs o = .error (.ioErr e)) := by
  cases hts : o.ts
  · refine ⟨?_, ?_, ?_⟩
    · simp [ProxyOption.get_tls_request, hts]
    · intro certs h
      simp at h
    · intro e h
      simp at h
  · rcases hc : ProxyOption.load_certs fs o.cert with e | certs
    · refine ⟨?_, ?_, ?_⟩
      · simp [ProxyOption.get_tls_request, hts, hc]
      · intro certs2 _ hok
        simp at hok
      · intro e2 _ he
        injection he with h
        subst h
        simp [ProxyOption.get_tls_request, hts, hc]
    · refine ⟨?_, ?_, ?_⟩
      · simp [ProxyOption.get_tls_request, hts, hc]
      · intro certs2 _ hok
        injection hok with h
        subst h
        refine ⟨?_, ?_⟩
        · simp [ProxyOption.get_tls_request, hts, hc,
            foldl_rootCertStore_add]
        · intro hall
          simp [ProxyOption.get_tls_request, hts, hc,
            foldl_rootCertStore_add, List.filter_eq_self.mpr hall]
      · intro e2 _ he
        simp at he

/-- The default option with TLS wrapping of the upstream connection
enabled. -/
def opt_ts : ProxyOption := { ProxyOption.default with ts := true }

theorem C5_get_tls_request_spec_witness :
    ProxyOption.get_tls_request (fun _ => true) fsEmpty opt_ts =
      .ok ⟨true, [⟨"MIIF+zCCBOOg"⟩, ⟨"MIIEqjCCA5Kg"⟩], true⟩ :=
  ((C5_get_tls_request_spec (fun _ => true) fsEmpty opt_ts).2.1
    [⟨"MIIF+zCCBOOg"⟩, ⟨"MIIEqjCCA5Kg"⟩] rfl rfl).2 (fun _ _ => rfl)

end Wmproxy
